import Mathlib

/-!
Verification of the ETL banks pipeline (banks_project.py) against its
specification.  The Python functions are shallowly embedded: rows of the
scraped HTML table become lists of cell strings, pandas DataFrames become a
record structure with optional derived columns, exceptions become `Except`,
and the file system / database / log file are explicit state values.
Numeric values are modelled as rationals.
-/

namespace BanksETL

/-- Whitespace characters removed by Python `str.strip()` (ASCII subset). -/
def isSpaceChar (c : Char) : Bool :=
  c = ' ' || c = '\t' || c = '\n' || c = '\r' || c = '\x0b' || c = '\x0c'

/-- Python `str.strip()` on the cell text: remove surrounding whitespace. -/
def pyStrip (s : String) : String :=
  ⟨((s.data.dropWhile isSpaceChar).reverse.dropWhile isSpaceChar).reverse⟩

/-- Python `str.replace(c, "")`: delete every occurrence of character `c`. -/
def removeChar (c : Char) (s : String) : String := ⟨s.data.filter (· ≠ c)⟩

/-- The cleaning applied to the market-cap cell in `extract`:
`cols[2].text.strip().replace(chr(10), "").replace(",", "")`. -/
def cleanMc (s : String) : String := removeChar ',' (removeChar '\n' (pyStrip s))

/-- All characters are decimal digits. -/
def isDigits (l : List Char) : Bool := l.all (·.isDigit)

/-- Value of a digit string, most significant first. -/
def digitsToNat (l : List Char) : ℕ := l.foldl (fun a c => a * 10 + (c.toNat - 48)) 0

/-- Parse an unsigned decimal literal (digits with at most one point),
as accepted by Python `float()` on plain decimal input. -/
def parseUnsigned (l : List Char) : Option ℚ :=
  let intPart := l.takeWhile (· ≠ '.')
  match l.dropWhile (· ≠ '.') with
  | [] =>
      if !intPart.isEmpty && isDigits intPart then some (digitsToNat intPart) else none
  | '.' :: fracPart =>
      if isDigits intPart && isDigits fracPart && (!intPart.isEmpty || !fracPart.isEmpty) then
        some ((digitsToNat intPart : ℚ) + (digitsToNat fracPart : ℚ) / 10 ^ fracPart.length)
      else none
  | _ => none

/-- Python `float(s)` on decimal literals with an optional sign; any other
string (such as "abc") fails, modelling the `ValueError` branch. -/
def pyFloat (s : String) : Option ℚ :=
  match s.data with
  | '-' :: rest => (parseUnsigned rest).map (fun q => -q)
  | '+' :: rest => parseUnsigned rest
  | l => parseUnsigned l

/-- A row of the extracted table: bank name and market cap in USD billions. -/
structure BankRecord where
  name : String
  mc_usd : ℚ
deriving Repr, DecidableEq

/-- The pandas DataFrame flowing through the pipeline: the two extracted
columns, plus the three currency columns `transform` adds in place
(absent, `none`, until assigned). -/
structure DataFrame where
  records : List BankRecord
  gbp : Option (List ℚ) := none
  eur : Option (List ℚ) := none
  inr : Option (List ℚ) := none
deriving Repr, DecidableEq

/-- Error kinds of the spec's taxonomy, to which the Python exceptions map
(`ValueError` for missing data, `KeyError` for missing rate keys, OS errors
for file writes). -/
inductive PipelineError where
  | networkError
  | dataNotFoundError
  | configError
  | ioError
  | storageError
  | queryError
deriving Repr, DecidableEq

/-- One iteration of the row loop in `extract`: rows with fewer than three
cells are skipped; otherwise cell 1 is the stripped name and cell 2 the
cleaned market cap, kept only when it parses as a float and is strictly
positive. -/
def rowRecord (row : List String) : Option BankRecord :=
  match row with
  | _ :: c1 :: c2 :: _ =>
    match pyFloat (cleanMc c2) with
    | some v => if 0 < v then some ⟨pyStrip c1, v⟩ else none
    | none => none
  | _ => none

/-- The `extract` loop over the rows of the first wikitable (the HTTP fetch
and HTML parsing are external collaborators; their result is the `rows`
argument).  The header row is skipped, each data row is filtered by
`rowRecord`, and an empty result raises the no-valid-data error. -/
def extract (rows : List (List String)) : Except PipelineError DataFrame :=
  let data := (rows.drop 1).filterMap rowRecord
  if data.isEmpty then .error .dataNotFoundError else .ok { records := data }

/-- Round a rational to the nearest integer, ties to even, the semantics of
`numpy.round` used by `transform`. -/
def roundHalfEven (x : ℚ) : ℤ :=
  if Int.fract x < 1/2 then ⌊x⌋
  else if 1/2 < Int.fract x then ⌊x⌋ + 1
  else if ⌊x⌋ % 2 = 0 then ⌊x⌋ else ⌊x⌋ + 1

/-- The two-decimal rounding `np.round(x, 2)` applied to each conversion. -/
def round2 (x : ℚ) : ℚ := (roundHalfEven (x * 100) : ℚ) / 100

/-- An exchange-rate table: the currency-to-rate dictionary built from the
rate CSV (`Currency` column as keys, `Rate` column as values). -/
abbrev RateTable : Type := List (String × ℚ)

/-- Fallback rates from `config.DEFAULT_EXCHANGE_RATES`. -/
def DEFAULT_EXCHANGE_RATES : RateTable :=
  [("EUR", 93/100), ("GBP", 8/10), ("INR", 8295/100)]

/-- Dictionary lookup `exchange_rate[c]`: `none` models the `KeyError`. -/
def rateLookup (r : RateTable) (c : String) : Option ℚ :=
  (r.find? (fun p => p.1 = c)).map (·.2)

/-- One converted column: the list comprehension
`[np.round(x * exchange_rate[c], 2) for x in df[MC_USD_Billion]]`.  The
dictionary access sits inside the comprehension body, so it is evaluated
once per row: with zero rows no lookup happens and the empty column is
built; with rows present a missing key raises the `KeyError` (the spec's
`ConfigError`) at the first element. -/
def convertColumn (records : List BankRecord) (rate : RateTable) (c : String) :
    Except PipelineError (List ℚ) :=
  match records with
  | [] => .ok []
  | r :: rest =>
    match rateLookup rate c with
    | none => .error .configError
    | some v =>
      match convertColumn rest rate c with
      | .ok l => .ok (round2 (r.mc_usd * v) :: l)
      | .error e => .error e

/-- The three in-place column assignments of `transform`, in program order
(GBP, then EUR, then INR).  The returned DataFrame is the state of the
mutated input object when an error interrupts the sequence; columns
assigned before the failing one remain set (a failing comprehension raises
before its assignment happens). -/
def transformSteps (df : DataFrame) (rate : RateTable) :
    DataFrame × Except PipelineError Unit :=
  match convertColumn df.records rate "GBP" with
  | .error e => (df, .error e)
  | .ok colG =>
    let df1 := { df with gbp := some colG }
    match convertColumn df.records rate "EUR" with
    | .error e => (df1, .error e)
    | .ok colE =>
      let df2 := { df1 with eur := some colE }
      match convertColumn df.records rate "INR" with
      | .error e => (df2, .error e)
      | .ok colI => ({ df2 with inr := some colI }, .ok ())

/-- The rate table `transform` ends up using: the parsed file when
`os.path.exists(csv_path)` held, the built-in default otherwise. -/
def chooseRate (fileRates : Option RateTable) : RateTable :=
  match fileRates with
  | some r => r
  | none => DEFAULT_EXCHANGE_RATES

/-- The `transform` function.  `fileRates` is the parsed rate file, `none`
when `os.path.exists(csv_path)` is false, in which case the built-in default
table is used and a warning is logged.  The result triple is (log messages
emitted, the state of the input DataFrame object after the call — `transform`
mutates its argument in place — and the function's outcome; on success the
returned DataFrame is that same mutated object). -/
def transform (df : DataFrame) (fileRates : Option RateTable) :
    List String × DataFrame × Except PipelineError DataFrame :=
  let warnLog :=
    match fileRates with
    | some _ => []
    | none => ["Exchange rates CSV not found, using default rates"]
  let res := transformSteps df (chooseRate fileRates)
  match res.2 with
  | .ok _ =>
      ("Starting data transformation..." :: warnLog ++
        ["Data transformation complete. Initiating Loading process"],
       res.1, .ok res.1)
  | .error err =>
      ("Starting data transformation..." :: warnLog ++ ["Transformation error"],
       res.1, .error err)

/-- The SQLite database: a map from table name to stored contents.  A stored
table holds exactly the rows of the DataFrame written to it. -/
abbrev Database : Type := String → Option DataFrame

/-- The `load_to_db` function: `df.to_sql(table_name, conn, if_exists =
"replace")` replaces the named table wholesale with the DataFrame. -/
def load_to_db (db : Database) (table_name : String) (df : DataFrame) : Database :=
  fun t => if t = table_name then some df else db t

/-- The file system seen by the CSV loader and the logger.  Paths are lists
of components; a file path's parent directory is all but its last
component.  `dirs` is the set of existing directories (the empty path, the
working directory, always exists).  `files` maps a file path to the
DataFrame serialized there. -/
structure FileSystem where
  dirs : List (List String)
  files : List (List String × DataFrame)
deriving DecidableEq

/-- Parent directory of a path, `os.path.dirname`. -/
def dirname (p : List String) : List String := p.dropLast

/-- Proper prefixes and the directory itself: everything
`os.makedirs(d, exist_ok = True)` brings into existence. -/
def dirPrefixes (d : List String) : List (List String) :=
  (List.range (d.length + 1)).map (fun n => d.take n)

/-- The `os.makedirs(d, exist_ok = True)` call: create the directory and
all its ancestors; existing directories are left alone and cause no error
(`dirs` is read as a set, so re-adding an existing directory is harmless).
On the empty path — `os.path.dirname` of a bare filename is the empty
string — `os.makedirs` raises `FileNotFoundError` even with `exist_ok`,
modelled as the OS error. -/
def makedirs (fs : FileSystem) (d : List String) : Except PipelineError FileSystem :=
  if d = [] then .error .ioError
  else .ok { fs with dirs := fs.dirs ++ dirPrefixes d }

/-- The `df.to_csv(path)` write: succeeds only when the parent directory
exists (the working directory `[]` always does), overwriting any previous
file at the path; otherwise the OS error, the spec's `IOError`. -/
def writeFile (fs : FileSystem) (p : List String) (df : DataFrame) :
    Except PipelineError FileSystem :=
  if dirname p = [] ∨ dirname p ∈ fs.dirs then
    .ok { fs with files := (p, df) :: fs.files.filter (fun q => q.1 ≠ p) }
  else .error .ioError

/-- The `load_to_csv` function: first `os.makedirs` on the output path's
parent, then the CSV write; a failure of either step propagates (the
`except` branch logs and re-raises). -/
def load_to_csv (fs : FileSystem) (output_path : List String) (df : DataFrame) :
    Except PipelineError FileSystem :=
  match makedirs fs (dirname output_path) with
  | .error e => .error e
  | .ok fs1 => writeFile fs1 output_path df

/-- File lookup in the modelled file system. -/
def readFile (fs : FileSystem) (p : List String) : Option DataFrame :=
  (fs.files.find? (fun q => q.1 = p)).map (·.2)

/-- The state of the log file plus whether opening it for append can
succeed (false models an unopenable or unwritable path). -/
structure LogFS where
  lines : List String
  writable : Bool
deriving DecidableEq

/-- The body of `log_progress`'s `try` block: open the log file for append
and write the stamped line; fails when the file cannot be opened. -/
def writeLogLine (fs : LogFS) (line : String) : Except String LogFS :=
  if fs.writable then .ok { fs with lines := fs.lines ++ [line] }
  else .error "cannot open log file"

/-- The `log_progress` function: try to append `stamp : message` and print
an OK line; on any exception, print the logging error and return normally.
The result is the log-file state and the console output; the `Except` layer
is the function's outcome as seen by its caller. -/
def log_progress (fs : LogFS) (stamp message : String) :
    Except String (LogFS × List String) :=
  match writeLogLine fs (stamp ++ " : " ++ message) with
  | .ok fs' => .ok (fs', ["[OK] " ++ message])
  | .error e => .ok (fs, ["Logging error: " ++ e])

deriving instance DecidableEq for Except

/-- Helper: any record kept by the row loop has a strictly positive market
cap, by case analysis on the row shape and the parse result. -/
theorem rowRecord_pos (row : List String) (r : BankRecord) :
    rowRecord row = some r → 0 < r.mc_usd := by
  intro h
  rcases row with _ | ⟨c0, _ | ⟨c1, _ | ⟨c2, rest⟩⟩⟩
  · cases h
  · cases h
  · cases h
  · simp only [rowRecord] at h
    cases hp : pyFloat (cleanMc c2) with
    | none => rw [hp] at h; cases h
    | some q =>
        rw [hp] at h
        change (if 0 < q then some ⟨pyStrip c1, q⟩ else none) = some r at h
        by_cases hlt : 0 < q
        · rw [if_pos hlt] at h
          injection h with h2
          rw [← h2]
          exact hlt
        · rw [if_neg hlt] at h
          cases h

/-- C1: a table row whose market-cap cell (cell 2) is non-numeric or parses
to a value that is not strictly positive contributes no record (`Option.all`
states the skip condition: the parse failed, or every parsed value is ≤ 0);
whenever at least one valid row exists `extract` succeeds with exactly the
valid rows in order; and on the spec's scenario rows the result is exactly
Bank A at 100 and Bank D at 50. -/
theorem C1_extract_skips_invalid_rows :
    (∀ (c0 c1 c2 : String) (rest : List String),
        (pyFloat (cleanMc c2)).all (fun q => q ≤ 0) = true →
        rowRecord (c0 :: c1 :: c2 :: rest) = none) ∧
    (∀ rows : List (List String),
        (rows.drop 1).filterMap rowRecord ≠ [] →
        extract rows = .ok { records := (rows.drop 1).filterMap rowRecord }) ∧
    extract [["Rank", "Bank name", "Market cap"],
      ["1", "Bank A", "100"], ["2", "Bank B", "abc"],
      ["3", "Bank C", "-5"], ["4", "Bank D", "50"]]
      = .ok { records := [⟨"Bank A", 100⟩, ⟨"Bank D", 50⟩] } := by
  refine ⟨?_, ?_, by rfl⟩
  · intro c0 c1 c2 rest h
    simp only [rowRecord]
    cases hp : pyFloat (cleanMc c2) with
    | none => rfl
    | some q =>
        rw [hp] at h
        simp only [Option.all, decide_eq_true_eq] at h
        simp [not_lt.mpr h]
  · intro rows h
    have hne : ((rows.drop 1).filterMap rowRecord).isEmpty = false := by
      cases hc : (rows.drop 1).filterMap rowRecord with
      | nil => exact absurd hc h
      | cons a l => rfl
    simp only [extract, hne]
    rfl

/-- C1 witness: the skip lemma applied to the non-numeric row "abc" and the
non-positive row "-5", and the success lemma applied to a one-row input. -/
theorem C1_witness :
    rowRecord ["2", "Bank B", "abc"] = none ∧
    rowRecord ["3", "Bank C", "-5"] = none ∧
    extract [["h"], ["1", "X", "7"]] = .ok { records := [⟨"X", 7⟩] } :=
  ⟨C1_extract_skips_invalid_rows.1 "2" "Bank B" "abc" [] (by decide),
   C1_extract_skips_invalid_rows.1 "3" "Bank C" "-5" [] (by decide),
   C1_extract_skips_invalid_rows.2.1 [["h"], ["1", "X", "7"]] (by decide)⟩

/-- C3: when no valid data row survives the filtering, `extract` fails with
the no-valid-data error (the spec's `DataNotFoundError`) instead of
returning an empty record set. -/
theorem C3_extract_fails_on_zero_valid_rows :
    ∀ rows : List (List String),
      (rows.drop 1).filterMap rowRecord = [] →
      extract rows = .error .dataNotFoundError := by
  intro rows h
  simp only [extract, h]
  rfl

/-- C3 witness: an input whose only data row has a non-numeric market cap
makes `extract` fail with the no-valid-data error. -/
theorem C3_witness :
    extract [["Rank", "Bank name", "Market cap"], ["1", "Bank B", "abc"]]
      = .error .dataNotFoundError :=
  C3_extract_fails_on_zero_valid_rows
    [["Rank", "Bank name", "Market cap"], ["1", "Bank B", "abc"]] (by decide)

/-- C4 counterexample: a data row whose name cell is all whitespace strips
to the empty string, yet its positive market cap keeps the row, so
`extract` produces a record with an empty name: the non-empty-name half of
the claimed invariant fails on this input. -/
theorem C4_counterexample :
    ¬ (∀ df, extract [["Rank", "Bank name", "Market cap"], ["1", "  ", "100"]] = .ok df →
        ∀ r ∈ df.records, 0 < r.mc_usd ∧ r.name ≠ "") := by
  intro h
  have hr := h { records := [⟨"", 100⟩] } (by rfl) ⟨"", 100⟩ (by simp)
  exact hr.2 rfl

/-- C4 amended: every record produced by `extract` has a strictly positive
market cap (the code filters on `mc_value > 0`); the name, however, is the
stripped cell text and may be empty, since no non-emptiness check exists. -/
theorem C4_extract_records_positive :
    ∀ (rows : List (List String)) (df : DataFrame),
      extract rows = .ok df → ∀ r ∈ df.records, 0 < r.mc_usd := by
  intro rows df h r hr
  simp only [extract] at h
  split at h
  · cases h
  · cases h
    rcases List.mem_filterMap.mp hr with ⟨row, _, hrow⟩
    exact rowRecord_pos row r hrow

/-- C4 witness: the amended invariant applied to the scenario input gives
positivity of Bank A's extracted market cap. -/
theorem C4_witness : (0 : ℚ) < 100 :=
  C4_extract_records_positive
    [["Rank", "Bank name", "Market cap"], ["1", "Bank A", "100"], ["4", "Bank D", "50"]]
    { records := [⟨"Bank A", 100⟩, ⟨"Bank D", 50⟩] } (by rfl)
    ⟨"Bank A", 100⟩ (by simp)

/-- Helper: `round2` on a rational whose hundredfold is the integer `n`
gives exactly `n / 100`, since no fractional part is left to round. -/
theorem round2_helper (x : ℚ) (n : ℤ) (h : x * 100 = (n : ℚ)) :
    round2 x = (n : ℚ) / 100 := by
  unfold round2 roundHalfEven
  rw [h]
  norm_num [Int.fract_intCast, Int.floor_intCast]

/-- Helper: when the key is present, the comprehension builds the whole
converted column, one rounded product per record in order. -/
theorem convertColumn_some (rate : RateTable) (c : String) (v : ℚ)
    (h : rateLookup rate c = some v) :
    ∀ records : List BankRecord,
      convertColumn records rate c
        = .ok (records.map (fun r => round2 (r.mc_usd * v))) := by
  intro records
  induction records with
  | nil => rfl
  | cons r rest ih => simp [convertColumn, h, ih]

/-- Helper: when the key is absent and at least one record exists, the
comprehension raises the `KeyError` at its first element. -/
theorem convertColumn_none (rate : RateTable) (c : String)
    (h : rateLookup rate c = none) :
    ∀ records : List BankRecord, records ≠ [] →
      convertColumn records rate c = .error .configError := by
  intro records hne
  cases records with
  | nil => exact absurd rfl hne
  | cons r rest => simp [convertColumn, h]

/-- Helper: the missing-key error is the only failure a column
comprehension can produce. -/
theorem convertColumn_error (records : List BankRecord) (rate : RateTable)
    (c : String) :
    ∀ u, convertColumn records rate c = .error u → u = PipelineError.configError := by
  intro u h
  cases records with
  | nil => exact Except.noConfusion h
  | cons r rest =>
    cases hl : rateLookup rate c with
    | none =>
        rw [convertColumn_none rate c hl (r :: rest) (by simp)] at h
        exact (Except.error.inj h).symm
    | some v =>
        rw [convertColumn_some rate c v hl (r :: rest)] at h
        exact Except.noConfusion h

/-- Helper: the column assignments never touch the `records` field of the
DataFrame, whichever branch is taken. -/
theorem transformSteps_records (df : DataFrame) (rate : RateTable) :
    ((transformSteps df rate).1).records = df.records := by
  simp only [transformSteps]
  cases convertColumn df.records rate "GBP" with
  | error e => rfl
  | ok colG =>
    cases convertColumn df.records rate "EUR" with
    | error e => rfl
    | ok colE =>
      cases convertColumn df.records rate "INR" with
      | error e => rfl
      | ok colI => rfl

/-- Helper: the only error the column-assignment sequence can produce is
the configuration error from a missing key. -/
theorem transformSteps_error (df : DataFrame) (rate : RateTable) :
    ∀ u, (transformSteps df rate).2 = .error u → u = PipelineError.configError := by
  intro u
  simp only [transformSteps]
  cases hg : convertColumn df.records rate "GBP" with
  | error e => intro h; exact (Except.error.inj h) ▸ convertColumn_error _ _ _ e hg
  | ok colG =>
    cases he : convertColumn df.records rate "EUR" with
    | error e => intro h; exact (Except.error.inj h) ▸ convertColumn_error _ _ _ e he
    | ok colE =>
      cases hi : convertColumn df.records rate "INR" with
      | error e => intro h; exact (Except.error.inj h) ▸ convertColumn_error _ _ _ e hi
      | ok colI => intro h; exact Except.noConfusion h

/-- C2: when the rate table holds the GBP, EUR and INR keys, `transform`
succeeds and each output column is the two-decimal rounding of the USD
value times the corresponding rate, in the input's record order (the
`records` field is untouched and each column is a `map` over it). -/
theorem C2_transform_converts_and_preserves_order :
    ∀ (df : DataFrame) (R : RateTable) (g e i : ℚ),
      rateLookup R "GBP" = some g → rateLookup R "EUR" = some e →
      rateLookup R "INR" = some i →
      (transform df (some R)).2.2 = .ok
        { df with
          gbp := some (df.records.map (fun r => round2 (r.mc_usd * g))),
          eur := some (df.records.map (fun r => round2 (r.mc_usd * e))),
          inr := some (df.records.map (fun r => round2 (r.mc_usd * i))) } := by
  intro df R g e i hg he hi
  have cg := convertColumn_some R "GBP" g hg df.records
  have ce := convertColumn_some R "EUR" e he df.records
  have ci := convertColumn_some R "INR" i hi df.records
  simp [transform, chooseRate, transformSteps, cg, ce, ci]

/-- C2 witness: the spec's scenario, USD 100 with rates GBP 0.8, EUR 0.93,
INR 82.95, yields 80, 93 and 8295. -/
theorem C2_witness :
    (transform { records := [⟨"Bank X", 100⟩] }
        (some [("GBP", 8/10), ("EUR", 93/100), ("INR", 8295/100)])).2.2
      = .ok { records := [⟨"Bank X", 100⟩], gbp := some [80], eur := some [93],
              inr := some [8295] } := by
  have h := C2_transform_converts_and_preserves_order
    { records := [⟨"Bank X", 100⟩] }
    [("GBP", 8/10), ("EUR", 93/100), ("INR", 8295/100)]
    (8/10) (93/100) (8295/100) rfl rfl rfl
  rw [h]
  have e1 : round2 ((100 : ℚ) * (8/10)) = 80 := by
    rw [round2_helper _ 8000 (by norm_num)]; norm_num
  have e2 : round2 ((100 : ℚ) * (93/100)) = 93 := by
    rw [round2_helper _ 9300 (by norm_num)]; norm_num
  have e3 : round2 ((100 : ℚ) * (8295/100)) = 8295 := by
    rw [round2_helper _ 829500 (by norm_num)]; norm_num
  simp [e1, e2, e3]

/-- C5 counterexample: `transform` assigns the three currency columns on
the DataFrame object it was given, so after the call the input object
differs from its pre-call state: the input collection is not left
unchanged. -/
theorem C5_counterexample :
    (transform { records := [⟨"Example Bank A", 100⟩] } none).2.1
      ≠ { records := [⟨"Example Bank A", 100⟩] } := by decide

/-- C5 amended: the record fields (name and market cap) of the input are
preserved — the post-state of the input DataFrame keeps the `records`
field intact — but the input object itself is enriched in place, and
`transform` either fails with the configuration error or returns exactly
that mutated input object. -/
theorem C5_transform_preserves_record_fields :
    ∀ (df : DataFrame) (fileRates : Option RateTable),
      ((transform df fileRates).2.1).records = df.records ∧
      ((transform df fileRates).2.2 = .error .configError ∨
        (transform df fileRates).2.2 = .ok ((transform df fileRates).2.1)) := by
  intro df fileRates
  have hrec := transformSteps_records df (chooseRate fileRates)
  have herr := transformSteps_error df (chooseRate fileRates)
  constructor
  · simp only [transform]
    cases hres : (transformSteps df (chooseRate fileRates)).2 with
    | ok u => simpa [hres] using hrec
    | error err => simpa [hres] using hrec
  · simp only [transform]
    cases hres : (transformSteps df (chooseRate fileRates)).2 with
    | ok u => right; simp [hres]
    | error err => left; simp [hres, herr err hres]

/-- C6 counterexample: the currency lookup sits inside the per-row list
comprehension, so with zero records it is never evaluated: an existing
rate file missing every required key (here the empty table) does not make
`transform` fail — it succeeds with three empty columns, refuting the
claim that a missing key always yields the configuration error. -/
theorem C6_counterexample :
    rateLookup ([] : RateTable) "GBP" = none ∧
    (transform { records := [] } (some [])).2.2
      = .ok { records := [], gbp := some [], eur := some [], inr := some [] } :=
  ⟨rfl, rfl⟩

/-- C6 amended: when at least one record is being converted, a rate table
missing any of the GBP, EUR or INR keys makes `transform` fail with the
`KeyError`, the spec's `ConfigError`: its outcome carries no DataFrame.
(With zero records the missing key is never touched and `transform`
succeeds.) -/
theorem C6_missing_rate_key_is_config_error :
    ∀ (df : DataFrame) (R : RateTable),
      df.records ≠ [] →
      (rateLookup R "GBP" = none ∨ rateLookup R "EUR" = none ∨
        rateLookup R "INR" = none) →
      (transform df (some R)).2.2 = .error .configError := by
  intro df R hne h
  rcases h with h | h | h
  · have c := convertColumn_none R "GBP" h df.records hne
    simp [transform, chooseRate, transformSteps, c]
  · cases hg : rateLookup R "GBP" with
    | none =>
        have c := convertColumn_none R "GBP" hg df.records hne
        simp [transform, chooseRate, transformSteps, c]
    | some g =>
        have cg := convertColumn_some R "GBP" g hg df.records
        have cE := convertColumn_none R "EUR" h df.records hne
        simp [transform, chooseRate, transformSteps, cg, cE]
  · cases hg : rateLookup R "GBP" with
    | none =>
        have c := convertColumn_none R "GBP" hg df.records hne
        simp [transform, chooseRate, transformSteps, c]
    | some g =>
        have cg := convertColumn_some R "GBP" g hg df.records
        cases he : rateLookup R "EUR" with
        | none =>
            have cE := convertColumn_none R "EUR" he df.records hne
            simp [transform, chooseRate, transformSteps, cg, cE]
        | some e =>
            have cE := convertColumn_some R "EUR" e he df.records
            have cI := convertColumn_none R "INR" h df.records hne
            simp [transform, chooseRate, transformSteps, cg, cE, cI]

/-- C6 witness: with one record present, a rate file that defines GBP and
EUR but not INR makes `transform` fail with the configuration error. -/
theorem C6_witness :
    (transform { records := [⟨"B", 10⟩] } (some [("GBP", 1), ("EUR", 1)])).2.2
      = .error .configError :=
  C6_missing_rate_key_is_config_error { records := [⟨"B", 10⟩] }
    [("GBP", 1), ("EUR", 1)] (by simp) (Or.inr (Or.inr rfl))

/-- C7: with no rate file at the path, `transform` does not fail: it logs
the fallback warning and succeeds, with every conversion computed from the
built-in default rates (GBP 0.8, EUR 0.93, INR 82.95). -/
theorem C7_missing_rate_file_falls_back :
    ∀ df : DataFrame,
      "Exchange rates CSV not found, using default rates" ∈ (transform df none).1 ∧
      (transform df none).2.2 = .ok
        { df with
          gbp := some (df.records.map (fun r => round2 (r.mc_usd * (8/10)))),
          eur := some (df.records.map (fun r => round2 (r.mc_usd * (93/100)))),
          inr := some (df.records.map (fun r => round2 (r.mc_usd * (8295/100)))) } := by
  intro df
  have hg : rateLookup DEFAULT_EXCHANGE_RATES "GBP" = some (8/10) := rfl
  have he : rateLookup DEFAULT_EXCHANGE_RATES "EUR" = some (93/100) := rfl
  have hi : rateLookup DEFAULT_EXCHANGE_RATES "INR" = some (8295/100) := rfl
  have cg := convertColumn_some DEFAULT_EXCHANGE_RATES "GBP" _ hg df.records
  have ce := convertColumn_some DEFAULT_EXCHANGE_RATES "EUR" _ he df.records
  have ci := convertColumn_some DEFAULT_EXCHANGE_RATES "INR" _ hi df.records
  constructor
  · simp [transform, chooseRate, transformSteps, cg, ce, ci]
  · simp [transform, chooseRate, transformSteps, cg, ce, ci]

/-- C8: the database load is idempotent: the replace-semantics write makes
loading the same DataFrame twice leave every table of the database exactly
as loading it once does, and the target table holds exactly the written
rows with no duplication. -/
theorem C8_load_to_db_idempotent :
    ∀ (db : Database) (table_name : String) (df : DataFrame),
      load_to_db (load_to_db db table_name df) table_name df
        = load_to_db db table_name df ∧
      load_to_db db table_name df table_name = some df := by
  intro db t df
  constructor
  · funext s
    simp only [load_to_db]
    split <;> rfl
  · simp [load_to_db]

/-- C9 counterexample: on an output path with no directory component —
`os.path.dirname` gives the empty string — `os.makedirs` raises
`FileNotFoundError` even with `exist_ok`, so `load_to_csv` fails although
the bare write itself would have succeeded in the working directory: the
claim that every output path succeeds is refuted. -/
theorem C9_counterexample :
    load_to_csv { dirs := [], files := [] } ["out.csv"] { records := [] }
      = .error .ioError := rfl

/-- C9 amended: for every output path with at least one parent directory
component, `load_to_csv` first creates the parent directories and then
writes, so it succeeds even when the parents are absent, the file holds
the DataFrame and the parent directory exists afterwards; a bare filename
(empty parent), however, fails with the OS error raised by `makedirs` on
the empty string. -/
theorem C9_load_to_csv_creates_parents :
    ∀ (fs : FileSystem) (output_path : List String) (df : DataFrame),
      (dirname output_path ≠ [] →
        ∃ fs2, load_to_csv fs output_path df = .ok fs2 ∧
          readFile fs2 output_path = some df ∧
          dirname output_path ∈ fs2.dirs) ∧
      (dirname output_path = [] →
        load_to_csv fs output_path df = .error .ioError) := by
  intro fs p df
  constructor
  · intro hne
    have hmk : makedirs fs (dirname p)
        = .ok { fs with dirs := fs.dirs ++ dirPrefixes (dirname p) } := by
      unfold makedirs
      rw [if_neg hne]
    have hparent : dirname p ∈ fs.dirs ++ dirPrefixes (dirname p) := by
      simp only [dirPrefixes, List.mem_append, List.mem_map, List.mem_range]
      exact Or.inr ⟨(dirname p).length, by omega, List.take_length (dirname p)⟩
    refine ⟨{ fs with
        dirs := fs.dirs ++ dirPrefixes (dirname p),
        files := (p, df) ::
          fs.files.filter (fun q => q.1 ≠ p) }, ?_, ?_, ?_⟩
    · unfold load_to_csv
      rw [hmk]
      unfold writeFile
      dsimp only
      rw [if_pos (Or.inr hparent)]
    · simp [readFile]
    · exact hparent
  · intro hnil
    unfold load_to_csv makedirs
    rw [hnil]
    rfl

/-- C9 witness: on an empty file system, writing to a path under a missing
directory succeeds with the file present and the directory created, and a
bare filename fails with the OS error. -/
theorem C9_witness :
    (∃ fs2, load_to_csv { dirs := [], files := [] } ["data", "out.csv"]
          { records := [] } = .ok fs2 ∧
        readFile fs2 ["data", "out.csv"] = some { records := [] } ∧
        dirname ["data", "out.csv"] ∈ fs2.dirs) ∧
    load_to_csv { dirs := [], files := [] } ["plain.csv"] { records := [] }
      = .error .ioError :=
  ⟨(C9_load_to_csv_creates_parents { dirs := [], files := [] }
      ["data", "out.csv"] { records := [] }).1 (by decide),
   (C9_load_to_csv_creates_parents { dirs := [], files := [] }
      ["plain.csv"] { records := [] }).2 rfl⟩

/-- C10: `log_progress` never propagates a failure to its caller: even on
a log file that cannot be opened, its outcome is a normal return — the
write error is caught, printed, and the log state left unchanged. -/
theorem C10_log_progress_never_raises :
    ∀ (fs : LogFS) (stamp message : String),
      (∃ out, log_progress fs stamp message = .ok out) ∧
      (fs.writable = false →
        log_progress fs stamp message
          = .ok (fs, ["Logging error: " ++ "cannot open log file"])) := by
  intro fs stamp message
  constructor
  · unfold log_progress writeLogLine
    cases hw : fs.writable <;> simp
  · intro hw
    unfold log_progress writeLogLine
    simp [hw]

/-- C10 witness: on an unwritable log file, `log_progress` returns
normally with the log unchanged and only the console error line. -/
theorem C10_witness :
    log_progress { lines := [], writable := false } "2023-Sep-08" "step done"
      = .ok ({ lines := [], writable := false },
          ["Logging error: " ++ "cannot open log file"]) :=
  (C10_log_progress_never_raises { lines := [], writable := false }
    "2023-Sep-08" "step done").2 rfl

end BanksETL
